import Mathlib

/-!
Shallow embedding of the DMX transmit engine in src/src/Sender.cpp
(class qindesign::teensydmx::Sender).

Modelling conventions:
* Machine integers are `Nat`/`Int`; where 32-bit overflow matters we reduce
  explicitly (`% U32` for uint32, `wrap32` for two-complement int wrap).
* The `float` refresh rate is modelled by `FloatVal`: either NaN or an exact
  rational value; the only float operations the source performs on it are
  the self-comparison NaN test, comparisons with 0, and one division.
* Hardware-variant compile-time switches (`#if` on chip family macros and
  `SERIAL_9BIT_SUPPORT`) become fields of `HWConfig`.
* The Teensy core constants SERIAL_7E1, SERIAL_8N1, ... are external to the
  repository; a format value is represented by its masked base case label
  (`FormatBase`, with `fOther` standing for every value matching no case
  label of the source switches) together with the two modifier bits
  kSerialFormatTXINVBit / kSerialFormatRXINVBit that the source masks off.
* Hardware side effects (sendHandler start/end/setIRQsEnabled) are reflected
  in the `irqEnabled` flag; the completion callback is modelled by whether a
  callback is installed plus a Bool result saying whether it was invoked.
-/

namespace TeensyDMX

/-- 2^32, the modulus of uint32 arithmetic. -/
def U32 : Nat := 4294967296

/-- Two-complement wrap of a mathematical integer into the int32 range,
matching what 32-bit int overflow does on the target hardware. -/
def wrap32 (x : Int) : Int := (x + 2147483648) % 4294967296 - 2147483648

/-- Modelled from the spec: `kMaxDMXPacketSize` is declared in TeensyDMX.h
(this repository, but not under src/); the spec fixes the channel buffer as a
"fixed-size sequence of exactly 513 bytes (1 start code + 512 channel
slots)". -/
def kMaxDMXPacketSize : Int := 513

/-- Default BREAK duration in microseconds (Sender.cpp line 34). -/
def kDefaultBreakTime : Nat := 180

/-- Default MAB duration in microseconds (Sender.cpp line 35). -/
def kDefaultMABTime : Nat := 20

/-- Masked serial-format base values: the case labels of the switches in
breakTime() / mabTime() / setBreakSerialParams(), plus `fOther` for every
format value that matches none of them (the `default:` case). -/
inductive FormatBase
  | f7E1 | f7O1 | f8N1 | f8N2 | f8E1 | f8O1 | f8E2 | f8O2
  | f9N1 | f9E1 | f9O1
  | fOther
deriving DecidableEq

/-- A serial format value: masked base plus the TXINV (0x20) and RXINV (0x10)
modifier bits that the source switches mask away. -/
structure SerialFormat where
  base : FormatBase
  txinv : Bool
  rxinv : Bool
deriving DecidableEq

/-- Compile-time hardware-family configuration: whether the 8E2/8O2 case
labels are compiled in (`__MK64FX512__`, `__MK66FX1M0__`, `KINETISL`,
`__IMXRT1062__`, `__IMXRT1052__`), whether 9-bit formats are compiled in
(`SERIAL_9BIT_SUPPORT`), and the two per-family empirical timing correction
constants (Sender.cpp lines 43-71). -/
structure HWConfig where
  has8x2 : Bool
  has9bit : Bool
  kBreakTimerAdjust : Nat
  kMABTimerAdjust : Nat
deriving DecidableEq

/-- Bit-time count used by breakTime() in serial-framing mode: the value `t`
assigned by the switch in Sender.cpp lines 332-352, or `none` for the
`default:` case (including case labels compiled out by `HWConfig`). -/
def breakBitCount (hw : HWConfig) (b : FormatBase) : Option Nat :=
  match b with
  | .f7E1 => some 9
  | .f8N1 => some 9
  | .f8O1 => some 9
  | .f8N2 => some 9
  | .f8E1 => some 10
  | .f8E2 => if hw.has8x2 then some 10 else none
  | .f8O2 => if hw.has8x2 then some 9 else none
  | .f7O1 => some 8
  | .f9N1 => if hw.has9bit then some 10 else none
  | .f9O1 => if hw.has9bit then some 10 else none
  | .f9E1 => if hw.has9bit then some 11 else none
  | .fOther => none

/-- Bit-time count used by mabTime() in serial-framing mode: the value `t`
assigned by the switch in Sender.cpp lines 372-392, or `none` for the
`default:` case. -/
def mabBitCount (hw : HWConfig) (b : FormatBase) : Option Nat :=
  match b with
  | .f7E1 => some 1
  | .f8N1 => some 1
  | .f8E1 => some 1
  | .f7O1 => some 2
  | .f8O1 => some 2
  | .f8N2 => some 2
  | .f8E2 => if hw.has8x2 then some 2 else none
  | .f8O2 => if hw.has8x2 then some 3 else none
  | .f9N1 => if hw.has9bit then some 1 else none
  | .f9E1 => if hw.has9bit then some 1 else none
  | .f9O1 => if hw.has9bit then some 2 else none
  | .fOther => none

/-- Whether a masked format base is accepted by the switch in
setBreakSerialParams() (Sender.cpp lines 406-428). -/
def formatSupported (hw : HWConfig) (b : FormatBase) : Bool :=
  match b with
  | .f7E1 => true
  | .f7O1 => true
  | .f8N1 => true
  | .f8E1 => true
  | .f8O1 => true
  | .f8N2 => true
  | .f8E2 => hw.has8x2
  | .f8O2 => hw.has8x2
  | .f9N1 => hw.has9bit
  | .f9E1 => hw.has9bit
  | .f9O1 => hw.has9bit
  | .fOther => false

/-- A C `float` value as used for the refresh rate: NaN, or an exact value
(modelled as a rational; the source only NaN-tests it, compares it with 0,
and divides 1000000 by it). -/
inductive FloatVal
  | nan
  | val (q : ℚ)
deriving DecidableEq

/-- Modelled from the spec: the `XmitStates` enum is declared in TeensyDMX.h
(not under src/); the spec lists the states "Idle, sending-break (when using
timer-based break), transmitting-data, completing". Sender.cpp itself uses
only `XmitStates::kIdle`. -/
inductive XmitState
  | idle
  | sendingBreak
  | transmittingData
  | completing
deriving DecidableEq

/-- The mutable state of one Sender instance.  Field names follow the C++
member names (TeensyDMX.h declarations, initialised in the constructor,
Sender.cpp lines 142-162).  `packetCount_` and `serialIndex_` are inherited
from TeensyDMX; `irqEnabled` abstracts the hardware send-handler interrupt
enable driven by start()/end()/setIRQsEnabled(). -/
structure SenderState where
  serialIndex_ : Int
  began_ : Bool
  state_ : XmitState
  outputBuf_ : List Nat
  outputBufIndex_ : Nat
  breakTime_ : Nat
  mabTime_ : Nat
  adjustedBreakTime_ : Nat
  adjustedMABTime_ : Nat
  breakBaud_ : Nat
  breakFormat_ : SerialFormat
  breakUseTimer_ : Bool
  packetSize_ : Nat
  refreshRate_ : FloatVal
  breakToBreakTime_ : Nat
  paused_ : Bool
  resumeCounter_ : Nat
  transmitting_ : Bool
  doneTXFunc_ : Bool
  packetCount_ : Nat
  irqEnabled : Bool
deriving DecidableEq

/-- Sender::setBreakTime (Sender.cpp lines 321-324): stores the requested
time and the hardware-adjusted time `t + kBreakTimerAdjust` (uint32). -/
def setBreakTime (hw : HWConfig) (s : SenderState) (t : Nat) : SenderState :=
  { s with breakTime_ := t % U32,
           adjustedBreakTime_ := (t % U32 + hw.kBreakTimerAdjust) % U32 }

/-- Sender::setMABTime (Sender.cpp lines 357-364): stores the requested time
and the adjusted time `t - kMABTimerAdjust`, clamped at zero. -/
def setMABTime (hw : HWConfig) (s : SenderState) (t : Nat) : SenderState :=
  { s with mabTime_ := t % U32,
           adjustedMABTime_ :=
             if t % U32 < hw.kMABTimerAdjust then 0
             else t % U32 - hw.kMABTimerAdjust }

/-- Sender::breakTime (Sender.cpp lines 326-355): the stored time in timer
mode; in serial-framing mode, bit-time count times 1000000 divided by the
break baud, or kDefaultBreakTime for an unsupported stored format. -/
def breakTime (hw : HWConfig) (s : SenderState) : Nat :=
  if s.breakUseTimer_ then s.breakTime_
  else
    match breakBitCount hw s.breakFormat_.base with
    | none => kDefaultBreakTime
    | some t => (t * 1000000) / s.breakBaud_

/-- Sender::mabTime (Sender.cpp lines 366-395): the stored time in timer
mode; in serial-framing mode, bit-time count times 1000000 divided by the
break baud, or kDefaultMABTime for an unsupported stored format. -/
def mabTime (hw : HWConfig) (s : SenderState) : Nat :=
  if s.breakUseTimer_ then s.mabTime_
  else
    match mabBitCount hw s.breakFormat_.base with
    | none => kDefaultMABTime
    | some t => (t * 1000000) / s.breakBaud_

/-- Sender::setBreakSerialParams (Sender.cpp lines 397-434).  Note: the
source switches on the STORED format `breakSerialFormat()` when validating,
not on the `format` argument; this definition reproduces that.  Returns the
new state and the Bool result. -/
def setBreakSerialParams (hw : HWConfig) (s : SenderState) (baud : Nat)
    (format : SerialFormat) : SenderState × Bool :=
  if baud = 0 then (s, false)
  else if format.txinv then (s, false)
  else if formatSupported hw s.breakFormat_.base then
    -- breakBaud_ = baud; breakFormat_ = format; breakSerialParamsChanged()
    ({ s with breakBaud_ := baud, breakFormat_ := format }, true)
  else (s, false)

/-- Sender::set(int, uint8_t) (Sender.cpp lines 436-442): single-byte write,
no critical section. -/
def set (s : SenderState) (channel : Int) (value : Nat) : SenderState × Bool :=
  if channel < 0 ∨ kMaxDMXPacketSize ≤ channel then (s, false)
  else ({ s with outputBuf_ := s.outputBuf_.set channel.toNat (value % 256) },
        true)

/-- Sender::set16Bit(int, uint16_t) (Sender.cpp lines 444-455): writes the
high byte to `channel` and the low byte to `channel + 1`, under the lock. -/
def set16Bit (s : SenderState) (channel : Int) (value : Nat) :
    SenderState × Bool :=
  if channel < 0 ∨ kMaxDMXPacketSize - 1 ≤ channel then (s, false)
  else
    let v := value % 65536
    let b := (s.outputBuf_.set channel.toNat (v / 256)).set
      (channel.toNat + 1) (v % 256)
    ({ s with outputBuf_ := b }, true)

/-- Semantics of `std::copy_n(&values[0], n, &buf[start])` for byte values:
writes `values[0..n)` to positions `start..`.  The `[]` case with nonzero
count is out-of-bounds source access in C++ (undefined); theorems assume the
caller supplies at least `n` values. -/
def copyN (buf : List Nat) (start : Nat) (values : List Nat) (n : Nat) :
    List Nat :=
  match n, values with
  | 0, _ => buf
  | _ + 1, [] => buf
  | m + 1, v :: vs => copyN (buf.set start (v % 256)) (start + 1) vs m

/-- Semantics of the byte-pair loop of Sender::set16Bit(int, const uint16_t*,
int): for each 16-bit value, high byte then low byte at consecutive
positions. -/
def copy16 (buf : List Nat) (start : Nat) (values : List Nat) (n : Nat) :
    List Nat :=
  match n, values with
  | 0, _ => buf
  | _ + 1, [] => buf
  | m + 1, v :: vs =>
      copy16 ((buf.set start (v % 65536 / 256)).set (start + 1) (v % 65536 % 256))
        (start + 2) vs m

/-- Sender::set(int, const uint8_t*, int) (Sender.cpp lines 457-473), called
setRange in the spec.  The end-index check computes `startChannel + len` in
32-bit int arithmetic (`wrap32`). -/
def setRange (s : SenderState) (startChannel : Int) (values : List Nat)
    (len : Int) : SenderState × Bool :=
  if len < 0 ∨ startChannel < 0 ∨ kMaxDMXPacketSize ≤ startChannel then
    (s, false)
  else if len = 0 then (s, true)
  else if wrap32 (startChannel + len) ≤ 0 ∨
          kMaxDMXPacketSize < wrap32 (startChannel + len) then (s, false)
  else ({ s with outputBuf_ :=
            copyN s.outputBuf_ startChannel.toNat values len.toNat }, true)

/-- Sender::set16Bit(int, const uint16_t*, int) (Sender.cpp lines 475-494),
called setRange16 in the spec.  The end-index check computes
`startChannel + len*2` in 32-bit int arithmetic. -/
def setRange16 (s : SenderState) (startChannel : Int) (values : List Nat)
    (len : Int) : SenderState × Bool :=
  if len < 0 ∨ startChannel < 0 ∨ kMaxDMXPacketSize ≤ startChannel then
    (s, false)
  else if len = 0 then (s, true)
  else if wrap32 (startChannel + wrap32 (len * 2)) ≤ 0 ∨
          kMaxDMXPacketSize < wrap32 (startChannel + wrap32 (len * 2)) then
    (s, false)
  else ({ s with outputBuf_ :=
            copy16 s.outputBuf_ startChannel.toNat values len.toNat }, true)

/-- Sender::isTransmitting (Sender.cpp lines 550-557):
`!paused_ || transmitting_`, read atomically under the lock. -/
def isTransmitting (s : SenderState) : Bool := !s.paused_ || s.transmitting_

/-- Sender::completePacket (Sender.cpp lines 559-571).  `incPacketCount()` is
declared in TeensyDMX.h (not under src/); modelled from the spec: "increment
a monotonic packet counter".  The Bool result records whether the completion
callback `doneTXFunc_` was invoked (paused and non-null). -/
def completePacket (s : SenderState) : SenderState × Bool :=
  ({ s with packetCount_ := s.packetCount_ + 1,
            outputBufIndex_ := 0,
            transmitting_ := false,
            state_ := XmitState.idle },
   s.paused_ && s.doneTXFunc_)

/-- A world of Sender instances (identified by Nat) together with the global
per-port registry `txInstances` (Sender.cpp lines 136-140): one slot per
physical port, holding the active instance or nothing. -/
structure World where
  inst : Nat → SenderState
  txInstances : Nat → Option Nat

/-- Replace the state of instance `i`. -/
def World.updInst (w : World) (i : Nat) (s : SenderState) : World :=
  { w with inst := fun j => if j = i then s else w.inst j }

/-- Replace registry slot `k`. -/
def World.updSlot (w : World) (k : Nat) (v : Option Nat) : World :=
  { w with txInstances := fun j => if j = k then v else w.txInstances j }

/-- Sender::end (Sender.cpp lines 298-319): no-op unless `began_`; clears
`began_`; masks the interrupts (sendHandler_->end(), intervalTimer_.end(),
reflected in `irqEnabled := false`); clears the registry slot only if it
still points to this instance. -/
def endW (w : World) (i : Nat) : World :=
  let s := w.inst i
  if s.began_ then
    let s1 := { s with began_ := false }
    let w1 := w.updInst i s1
    if s1.serialIndex_ < 0 then w1
    else
      let w2 := w1.updInst i { s1 with irqEnabled := false }
      if w2.txInstances s1.serialIndex_.toNat = some i then
        w2.updSlot s1.serialIndex_.toNat none
      else w2
  else w

/-- Sender::begin (Sender.cpp lines 268-296): no-op if already `began_`;
sets `began_`; resets the packet count (`resetPacketCount()` is declared in
TeensyDMX.h, not under src/; modelled from the spec: "begin() claims the
PortBinding, resets counters"); installs this instance into its registry
slot and calls end() on any different prior occupant; clears
`transmitting_`, sets the state to Idle and arms the hardware
(sendHandler_->start()/setActive(), reflected in `irqEnabled := true`). -/
def beginW (w : World) (i : Nat) : World :=
  let s := w.inst i
  if s.began_ then w
  else
    let s1 := { s with began_ := true }
    let w1 := w.updInst i s1
    if s1.serialIndex_ < 0 then w1
    else
      let s2 := { s1 with packetCount_ := 0 }
      let w2 := w1.updInst i s2
      let idx := s1.serialIndex_.toNat
      let prior := w2.txInstances idx
      let w3 := w2.updSlot idx (some i)
      let w4 :=
        match prior with
        | some j => if j ≠ i then endW w3 j else w3
        | none => w3
      w4.updInst i { s2 with transmitting_ := false,
                             state_ := XmitState.idle,
                             irqEnabled := true }

/-- Truncating conversion of a nonnegative float value to uint32, as in
`breakToBreakTime_ = 1000000 / rate` (the conversion is undefined for
values at or above 2^32; the reduction mod 2^32 only normalises that
case). -/
def ratTrunc32 (q : ℚ) : Nat := (Int.floor q).toNat % U32

/-- Sender::setRefreshRate (Sender.cpp lines 503-518): rejects NaN
(`rate != rate`) and negative rates without mutating anything; rate 0 sets
`breakToBreakTime_` to UINT32_MAX; a nonzero rate first fully restarts the
engine (end() then begin()) when the previously stored rate was 0, then sets
`breakToBreakTime_ = 1000000 / rate`; finally stores the rate. -/
def setRefreshRate (w : World) (i : Nat) (rate : FloatVal) : World × Bool :=
  match rate with
  | .nan => (w, false)
  | .val q =>
    if q < 0 then (w, false)
    else if q = 0 then
      (w.updInst i { w.inst i with breakToBreakTime_ := 4294967295,
                                   refreshRate_ := rate }, true)
    else
      let w1 := if (w.inst i).refreshRate_ = FloatVal.val 0 then
                  beginW (endW w i) i
                else w
      (w1.updInst i
         { w1.inst i with breakToBreakTime_ := ratTrunc32 (1000000 / q),
                          refreshRate_ := rate }, true)

/-!
Interleaving model for the concurrency contract (spec section 5): the
application-context writer runs a sequence of steps; the interrupt-context
reader may observe the output buffer between steps, but only while the
interrupts are enabled.  The `Lock` guard used by the ranged writes (its
constructor calls Sender::disableIRQs, its destructor Sender::enableIRQs,
Sender.cpp lines 577-589, masking the transmit interrupt of this port) is
reflected by the disableIRQ/enableIRQ steps; while interrupts are masked the
hardware cannot run the reader at all.
-/

/-- One atomic action of the application-context writer. -/
inductive WStep
  | disableIRQ
  | enableIRQ
  | writeByte (i : Nat) (v : Nat)
deriving DecidableEq

/-- Whether a writer step is a plain buffer write. -/
def WStep.isWrite : WStep → Bool
  | .writeByte _ _ => true
  | _ => false

/-- An event of an interleaved execution: one writer step, or an attempt of
the interrupt-context reader to observe the buffer. -/
inductive Event
  | wstep (st : WStep)
  | read
deriving DecidableEq

/-- The writer steps of a schedule, in order. -/
def wsteps : List Event → List WStep
  | [] => []
  | .read :: es => wsteps es
  | .wstep st :: es => st :: wsteps es

/-- Run a schedule: writer steps update the buffer and the interrupt-enable
flag; a read observes (snapshots) the buffer only when interrupts are
enabled — a masked interrupt does not run. -/
def exec (buf : List Nat) (irq : Bool) : List Event → List (List Nat)
  | [] => []
  | .read :: es => if irq then buf :: exec buf irq es else exec buf irq es
  | .wstep .disableIRQ :: es => exec buf false es
  | .wstep .enableIRQ :: es => exec buf true es
  | .wstep (.writeByte i v) :: es => exec (buf.set i v) irq es

/-- Apply the buffer writes of a step list (ignoring interrupt toggles). -/
def applyWrites (buf : List Nat) : List WStep → List Nat
  | [] => buf
  | .writeByte i v :: rest => applyWrites (buf.set i v) rest
  | .disableIRQ :: rest => applyWrites buf rest
  | .enableIRQ :: rest => applyWrites buf rest

/-- The shape of every ranged write in the source: the Lock constructor
masks the interrupts, the body writes bytes, the Lock destructor unmasks
them. -/
def lockBlock (ws : List WStep) : List WStep :=
  WStep.disableIRQ :: (ws ++ [WStep.enableIRQ])

/-- Byte writes performed inside the lock by the copy_n loop of
Sender::set(int, const uint8_t*, int). -/
def rangeWrites : Nat → List Nat → Nat → List WStep
  | _, _, 0 => []
  | _, [], _ + 1 => []
  | start, v :: vs, m + 1 =>
      WStep.writeByte start (v % 256) :: rangeWrites (start + 1) vs m

/-- Byte writes performed inside the lock by the loop of
Sender::set16Bit(int, const uint16_t*, int). -/
def range16Writes : Nat → List Nat → Nat → List WStep
  | _, _, 0 => []
  | _, [], _ + 1 => []
  | start, v :: vs, m + 1 =>
      WStep.writeByte start (v % 65536 / 256) ::
        WStep.writeByte (start + 1) (v % 65536 % 256) ::
          range16Writes (start + 2) vs m

/-- The three locked write operations of the source, by their arguments. -/
inductive RangedOp
  | s16 (channel : Nat) (value : Nat)
  | rng (start : Nat) (values : List Nat) (n : Nat)
  | rng16 (start : Nat) (values : List Nat) (n : Nat)

/-- The byte writes each locked operation performs inside its critical
section. -/
def opWrites : RangedOp → List WStep
  | .s16 channel value =>
      [WStep.writeByte channel (value % 65536 / 256),
       WStep.writeByte (channel + 1) (value % 65536 % 256)]
  | .rng start values n => rangeWrites start values n
  | .rng16 start values n => range16Writes start values n

/-- The buffer each locked operation produces, phrased with the buffer
functions of the corresponding Sender methods. -/
def opResult (buf : List Nat) : RangedOp → List Nat
  | .s16 channel value =>
      (buf.set channel (value % 65536 / 256)).set (channel + 1)
        (value % 65536 % 256)
  | .rng start values n => copyN buf start values n
  | .rng16 start values n => copy16 buf start values n

/-- The byte writes of the single-byte Sender::set(int, uint8_t), which
takes NO lock: just the one store. -/
def setSteps (channel : Int) (value : Nat) : List WStep :=
  [WStep.writeByte channel.toNat (value % 256)]

/-! Concrete states used by witnesses and counterexamples. -/

/-- A freshly constructed, started Sender: the constructor defaults of
Sender.cpp lines 142-162 (buffer zeroed, 8N1 break format at 50000 baud,
break/MAB 180/20, serial-framing break mode), with the packet counter at 0
and the hardware armed. -/
def s0 : SenderState :=
  { serialIndex_ := 0, began_ := true, state_ := XmitState.idle,
    outputBuf_ := List.replicate 513 0, outputBufIndex_ := 0,
    breakTime_ := 180, mabTime_ := 20,
    adjustedBreakTime_ := 180, adjustedMABTime_ := 20,
    breakBaud_ := 50000,
    breakFormat_ := ⟨FormatBase.f8N1, false, false⟩,
    breakUseTimer_ := false, packetSize_ := 513,
    refreshRate_ := FloatVal.val 44, breakToBreakTime_ := 22727,
    paused_ := false, resumeCounter_ := 0, transmitting_ := false,
    doneTXFunc_ := false, packetCount_ := 0, irqEnabled := true }

/-- Hardware-family configuration of __MK20DX128__/__MK20DX256__:
kBreakTimerAdjust = 1 (line 44), kMABTimerAdjust = 7 (line 60); the 8E2/8O2
case labels are not compiled in for this family. -/
def hwMK20 : HWConfig := ⟨false, true, 1, 7⟩

/-- Hardware-family configuration of __MKL26Z64__ (KINETISL):
kBreakTimerAdjust = 5 (line 46), kMABTimerAdjust = 12 (line 62); the
8E2/8O2 case labels are compiled in. -/
def hwKL26 : HWConfig := ⟨true, true, 5, 12⟩

/-- A format value matching no case label of the source switches. -/
def fmtBad : SerialFormat := ⟨FormatBase.fOther, false, false⟩

/-- The default break format SERIAL_8N1, no modifier bits. -/
def fmt8N1 : SerialFormat := ⟨FormatBase.f8N1, false, false⟩

/-- A Sender whose stored break format is unsupported. -/
def s2bad : SenderState := { s0 with breakFormat_ := fmtBad }

/-- A Sender mid-packet: transmitting, not paused. -/
def s3 : SenderState := { s0 with transmitting_ := true }

/-- A world holding the mid-packet Sender `s3` as instance 0, registered in
slot 0. -/
def w3 : World :=
  { inst := fun _ => s3,
    txInstances := fun k => if k = 0 then some 0 else none }

/-- A Sender whose stored refresh rate is 0. -/
def s6 : SenderState :=
  { s0 with refreshRate_ := FloatVal.val 0, breakToBreakTime_ := 4294967295 }

/-- A world holding `s6` as instance 0, registered in slot 0. -/
def w6 : World :=
  { inst := fun _ => s6,
    txInstances := fun k => if k = 0 then some 0 else none }

/-- A Sender that has not begun (instance 0 of `w8`). -/
def sA : SenderState := { s0 with began_ := false, irqEnabled := false }

/-- A started, mid-packet Sender (instance 1 of `w8`). -/
def sB : SenderState := { s0 with transmitting_ := true }

/-- A world with two instances on the same port: slot 0 is currently owned
by instance 1 (`sB`); instance 0 (`sA`) has not begun. -/
def w8 : World :=
  { inst := fun n => if n = 0 then sA else sB,
    txInstances := fun k => if k = 0 then some 1 else none }

/-- A concrete interleaved schedule: reads before, inside, and after the
locked write of set16Bit(1, 1795). -/
def es9 : List Event :=
  [Event.read, Event.wstep WStep.disableIRQ, Event.read,
   Event.wstep (WStep.writeByte 1 7), Event.read,
   Event.wstep (WStep.writeByte 2 3), Event.wstep WStep.enableIRQ,
   Event.read]

/-!  Theorems.  -/

/-- A schedule with no remaining writer steps never changes the buffer: all
snapshots equal the current buffer. -/
theorem exec_of_wsteps_nil (es : List Event) (buf : List Nat) (irq : Bool)
    (h : wsteps es = []) : ∀ b ∈ exec buf irq es, b = buf := by
  induction es generalizing irq with
  | nil => intro b hb; simp [exec] at hb
  | cons e es ih =>
    cases e with
    | read =>
      intro b hb
      simp only [wsteps] at h
      cases irq with
      | false => exact ih false h b (by simpa [exec] using hb)
      | true =>
        rcases (by simpa [exec] using hb : b = buf ∨ b ∈ exec buf true es) with
          h1 | h1
        · exact h1
        · exact ih true h b h1
    | wstep st => simp [wsteps] at h

/-- While the interrupts are masked, a schedule whose remaining writer steps
are plain writes followed by the unlock step yields only snapshots of the
fully written buffer. -/
theorem exec_locked (ws : List WStep) (es : List Event) (buf : List Nat)
    (hw : ∀ st ∈ ws, st.isWrite = true)
    (h : wsteps es = ws ++ [WStep.enableIRQ]) :
    ∀ b ∈ exec buf false es, b = applyWrites buf ws := by
  induction es generalizing ws buf with
  | nil => simp [wsteps] at h
  | cons e es ih =>
    cases e with
    | read =>
      intro b hb
      exact ih ws buf hw (by simpa [wsteps] using h) b
        (by simpa [exec] using hb)
    | wstep st =>
      simp only [wsteps] at h
      cases ws with
      | nil =>
        simp only [List.nil_append, List.cons.injEq] at h
        intro b hb
        rw [h.1] at hb
        simp only [exec] at hb
        exact exec_of_wsteps_nil es buf true h.2 b hb
      | cons w ws2 =>
        simp only [List.cons_append, List.cons.injEq] at h
        have hwrite : w.isWrite = true := hw w (List.mem_cons_self w ws2)
        cases w with
        | disableIRQ => simp [WStep.isWrite] at hwrite
        | enableIRQ => simp [WStep.isWrite] at hwrite
        | writeByte i v =>
          intro b hb
          rw [h.1] at hb
          simp only [exec] at hb
          have := ih ws2 (buf.set i v)
            (fun st hst => hw st (List.mem_cons_of_mem _ hst)) h.2 b hb
          simpa [applyWrites] using this

/-- Interrupt-context reads interleaved with a locked write block observe
either the buffer from before the block or the buffer after all its writes,
never a mixture. -/
theorem exec_lockBlock_mem (ws : List WStep) (es : List Event)
    (buf : List Nat) (hw : ∀ st ∈ ws, st.isWrite = true)
    (h : wsteps es = lockBlock ws) :
    ∀ b ∈ exec buf true es, b = buf ∨ b = applyWrites buf ws := by
  induction es with
  | nil => simp [wsteps, lockBlock] at h
  | cons e es ih =>
    cases e with
    | read =>
      intro b hb
      rcases (by simpa [exec] using hb : b = buf ∨ b ∈ exec buf true es) with
        h1 | h1
      · exact Or.inl h1
      · exact ih (by simpa [wsteps] using h) b h1
    | wstep st =>
      simp only [wsteps, lockBlock, List.cons.injEq] at h
      intro b hb
      rw [h.1] at hb
      simp only [exec] at hb
      exact Or.inr (exec_locked ws es buf hw h.2 b hb)

/-- Every step in a rangeWrites list is a plain write. -/
theorem rangeWrites_isWrite (start : Nat) (vs : List Nat) (n : Nat) :
    ∀ st ∈ rangeWrites start vs n, st.isWrite = true := by
  induction n generalizing start vs with
  | zero => simp [rangeWrites]
  | succ m ih =>
    cases vs with
    | nil => simp [rangeWrites]
    | cons v vs =>
      intro st hst
      rcases (by simpa [rangeWrites] using hst :
          st = WStep.writeByte start (v % 256) ∨
            st ∈ rangeWrites (start + 1) vs m) with h1 | h1
      · simp [h1, WStep.isWrite]
      · exact ih (start + 1) vs st h1

/-- Every step in a range16Writes list is a plain write. -/
theorem range16Writes_isWrite (start : Nat) (vs : List Nat) (n : Nat) :
    ∀ st ∈ range16Writes start vs n, st.isWrite = true := by
  induction n generalizing start vs with
  | zero => simp [range16Writes]
  | succ m ih =>
    cases vs with
    | nil => simp [range16Writes]
    | cons v vs =>
      intro st hst
      rcases (by simpa [range16Writes] using hst :
          st = WStep.writeByte start (v % 65536 / 256) ∨
            st = WStep.writeByte (start + 1) (v % 65536 % 256) ∨
            st ∈ range16Writes (start + 2) vs m) with h1 | h1 | h1
      · simp [h1, WStep.isWrite]
      · simp [h1, WStep.isWrite]
      · exact ih (start + 2) vs st h1

/-- Every step each locked operation performs is a plain write. -/
theorem opWrites_isWrite (op : RangedOp) :
    ∀ st ∈ opWrites op, st.isWrite = true := by
  cases op with
  | s16 channel value =>
    intro st hst
    rcases (by simpa [opWrites] using hst) with h1 | h1 <;>
      simp [h1, WStep.isWrite]
  | rng start values n => exact rangeWrites_isWrite start values n
  | rng16 start values n => exact range16Writes_isWrite start values n

/-- The writes of the copy_n loop produce exactly the copyN buffer. -/
theorem applyWrites_rangeWrites (buf : List Nat) (start : Nat)
    (vs : List Nat) (n : Nat) :
    applyWrites buf (rangeWrites start vs n) = copyN buf start vs n := by
  induction n generalizing start vs buf with
  | zero => cases vs <;> simp [rangeWrites, copyN, applyWrites]
  | succ m ih =>
    cases vs with
    | nil => simp [rangeWrites, copyN, applyWrites]
    | cons v vs =>
      have h := ih (buf.set start (v % 256)) (start + 1) vs
      simpa [rangeWrites, copyN, applyWrites] using h

/-- The writes of the 16-bit loop produce exactly the copy16 buffer. -/
theorem applyWrites_range16Writes (buf : List Nat) (start : Nat)
    (vs : List Nat) (n : Nat) :
    applyWrites buf (range16Writes start vs n) = copy16 buf start vs n := by
  induction n generalizing start vs buf with
  | zero => cases vs <;> simp [range16Writes, copy16, applyWrites]
  | succ m ih =>
    cases vs with
    | nil => simp [range16Writes, copy16, applyWrites]
    | cons v vs =>
      have h := ih ((buf.set start (v % 65536 / 256)).set (start + 1)
        (v % 65536 % 256)) (start + 2) vs
      simpa [range16Writes, copy16, applyWrites] using h

/-- The writes of each locked operation produce exactly the buffer of the
corresponding Sender method. -/
theorem applyWrites_opWrites (buf : List Nat) (op : RangedOp) :
    applyWrites buf (opWrites op) = opResult buf op := by
  cases op with
  | s16 channel value => simp [opWrites, opResult, applyWrites]
  | rng start values n => exact applyWrites_rangeWrites buf start values n
  | rng16 start values n => exact applyWrites_range16Writes buf start values n

/-- C9: for every interleaving of one of the locked application-context
writes (set16Bit, ranged set, ranged set16Bit) with the interrupt-context
reader, every buffer the reader observes is either entirely the pre-write
buffer or entirely the post-write buffer — no torn bytes or ranges. -/
theorem c9_locked_write_atomic (op : RangedOp) (buf : List Nat)
    (es : List Event) (h : wsteps es = lockBlock (opWrites op)) :
    ∀ b ∈ exec buf true es, b = buf ∨ b = opResult buf op := by
  intro b hb
  rcases exec_lockBlock_mem (opWrites op) es buf (opWrites_isWrite op) h b hb
    with h1 | h1
  · exact Or.inl h1
  · exact Or.inr (h1.trans (applyWrites_opWrites buf op))

/-- C9 witness: a concrete schedule interleaving three reads with the locked
write of set16Bit(1, 1795): every observed buffer is the old or the new
one. -/
theorem c9_locked_write_witness :
    wsteps es9 = lockBlock (opWrites (RangedOp.s16 1 1795)) ∧
    ∀ b ∈ exec [0, 0, 0, 0] true es9,
      b = [0, 0, 0, 0] ∨ b = opResult [0, 0, 0, 0] (RangedOp.s16 1 1795) :=
  ⟨by decide,
   c9_locked_write_atomic (RangedOp.s16 1 1795) [0, 0, 0, 0] es9 (by decide)⟩

set_option maxRecDepth 40000 in
/-- C1 counterexample: the source compares the end index against
kMaxDMXPacketSize = 513, not 512, so setRange(512, values, 1) — end index
513, which the claim says "exceeds the stated limit of 512" and must fail —
in fact succeeds and writes the buffer. -/
theorem c1_range_write_counterexample :
    (setRange s0 512 [7] 1).2 = true ∧
    (setRange s0 512 [7] 1).1.outputBuf_ ≠ s0.outputBuf_ := by decide

/-- C1 (amended): range-writing operations return false and leave the whole
state (in particular every buffer byte) unchanged whenever len is negative,
startChannel is out of [0, 513), or the end index startChannel + len
(respectively startChannel + 2*len), computed in wrapping 32-bit int
arithmetic, wraps to a nonpositive value or exceeds 513 — the full physical
buffer size, not 512; in-bounds calls return true and write the range, e.g.
setRange(511, values, 1) succeeds, and set(-1, 5) fails. -/
theorem c1_range_write_amended (s : SenderState) (start len : Int)
    (values : List Nat) :
    ((len < 0 ∨ start < 0 ∨ kMaxDMXPacketSize ≤ start) →
        setRange s start values len = (s, false) ∧
        setRange16 s start values len = (s, false)) ∧
    (0 ≤ start → start < kMaxDMXPacketSize →
        setRange s start values 0 = (s, true) ∧
        setRange16 s start values 0 = (s, true)) ∧
    (0 ≤ start → start < kMaxDMXPacketSize → 0 < len →
        (wrap32 (start + len) ≤ 0 ∨
          kMaxDMXPacketSize < wrap32 (start + len)) →
        setRange s start values len = (s, false)) ∧
    (0 ≤ start → start < kMaxDMXPacketSize → 0 < len →
        0 < wrap32 (start + len) → wrap32 (start + len) ≤ kMaxDMXPacketSize →
        (setRange s start values len).2 = true ∧
        (setRange s start values len).1.outputBuf_ =
          copyN s.outputBuf_ start.toNat values len.toNat) ∧
    (0 ≤ start → start < kMaxDMXPacketSize → 0 < len →
        (wrap32 (start + wrap32 (len * 2)) ≤ 0 ∨
          kMaxDMXPacketSize < wrap32 (start + wrap32 (len * 2))) →
        setRange16 s start values len = (s, false)) ∧
    (0 ≤ start → start < kMaxDMXPacketSize → 0 < len →
        0 < wrap32 (start + wrap32 (len * 2)) →
        wrap32 (start + wrap32 (len * 2)) ≤ kMaxDMXPacketSize →
        (setRange16 s start values len).2 = true ∧
        (setRange16 s start values len).1.outputBuf_ =
          copy16 s.outputBuf_ start.toNat values len.toNat) ∧
    (set s (-1) 5 = (s, false)) ∧
    ((setRange s 511 values 1).2 = true) := by
  refine ⟨?_, ?_, ?_, ?_, ?_, ?_, ?_, ?_⟩
  · intro h
    constructor
    · simp only [setRange]; rw [if_pos h]
    · simp only [setRange16]; rw [if_pos h]
  · intro h1 h2
    constructor
    · simp only [setRange]
      rw [if_neg (by simp [kMaxDMXPacketSize] at h2 ⊢; omega)]
      simp
    · simp only [setRange16]
      rw [if_neg (by simp [kMaxDMXPacketSize] at h2 ⊢; omega)]
      simp
  · intro h1 h2 h3 h4
    simp only [setRange]
    rw [if_neg (by simp [kMaxDMXPacketSize] at h2 ⊢; omega),
      if_neg (by omega), if_pos h4]
  · intro h1 h2 h3 h4 h5
    simp only [setRange]
    rw [if_neg (by simp [kMaxDMXPacketSize] at h2 ⊢; omega),
      if_neg (by omega),
      if_neg (by simp [kMaxDMXPacketSize] at h5 ⊢; omega)]
    exact ⟨rfl, rfl⟩
  · intro h1 h2 h3 h4
    simp only [setRange16]
    rw [if_neg (by simp [kMaxDMXPacketSize] at h2 ⊢; omega),
      if_neg (by omega), if_pos h4]
  · intro h1 h2 h3 h4 h5
    simp only [setRange16]
    rw [if_neg (by simp [kMaxDMXPacketSize] at h2 ⊢; omega),
      if_neg (by omega),
      if_neg (by simp [kMaxDMXPacketSize] at h5 ⊢; omega)]
    exact ⟨rfl, rfl⟩
  · simp only [set]
    rw [if_pos (by simp [kMaxDMXPacketSize])]
  · simp only [setRange]
    rw [if_neg (by simp [kMaxDMXPacketSize]), if_neg (by omega),
      if_neg (by simp [wrap32, kMaxDMXPacketSize])]

/-- C1 witness: concrete in-bounds and out-of-bounds calls. -/
theorem c1_range_write_witness :
    (setRange s0 511 [7] 1).2 = true ∧
    setRange s0 511 [1, 2, 3] 3 = (s0, false) ∧
    setRange16 s0 512 [300] 1 = (s0, false) ∧
    set s0 (-1) 5 = (s0, false) ∧
    (setRange s0 3 [1, 2] 2).1.outputBuf_ =
      copyN s0.outputBuf_ 3 [1, 2] 2 := by
  have h1 := c1_range_write_amended s0 511 3 [1, 2, 3]
  have h2 := c1_range_write_amended s0 512 1 [300]
  have h3 := c1_range_write_amended s0 3 2 [1, 2]
  refine ⟨(c1_range_write_amended s0 0 0 [7]).2.2.2.2.2.2.2, ?_, ?_, ?_, ?_⟩
  · exact h1.2.2.1 (by decide) (by decide) (by decide) (by decide)
  · exact h2.2.2.2.2.1 (by decide) (by decide) (by decide) (by decide)
  · exact h3.2.2.2.2.2.2.1
  · exact (h3.2.2.2.1 (by decide) (by decide) (by decide) (by decide)
      (by decide)).2

/-- C10: the single-byte set(channel, value) succeeds and writes the byte
for every 0 ≤ channel < 513 (kMaxDMXPacketSize) — including channel 0 (the
start code) and channel 512 (the last physical slot) — and fails without
mutating for channel < 0 or channel ≥ 513; its write sequence takes no
lock: it contains no interrupt-disable or interrupt-enable step, just the
one store. -/
theorem c10_set_single (s : SenderState) (channel : Int) (v : Nat) :
    ((0 ≤ channel ∧ channel < kMaxDMXPacketSize) →
        (set s channel v).2 = true ∧
        (set s channel v).1.outputBuf_ =
          s.outputBuf_.set channel.toNat (v % 256)) ∧
    ((channel < 0 ∨ kMaxDMXPacketSize ≤ channel) →
        set s channel v = (s, false)) ∧
    (WStep.disableIRQ ∉ setSteps channel v ∧
      WStep.enableIRQ ∉ setSteps channel v) ∧
    (applyWrites s.outputBuf_ (setSteps channel v) =
        s.outputBuf_.set channel.toNat (v % 256)) := by
  refine ⟨?_, ?_, ?_, ?_⟩
  · intro h
    simp only [set]
    rw [if_neg (by omega)]
    exact ⟨rfl, rfl⟩
  · intro h
    simp only [set]
    rw [if_pos h]
  · simp [setSteps]
  · simp [setSteps, applyWrites]

/-- C10 witness: channels 0, 512 succeed (writing the byte), channels -1 and
513 fail. -/
theorem c10_set_single_witness :
    (set s0 0 99).2 = true ∧
    (set s0 512 99).2 = true ∧
    (set s0 512 99).1.outputBuf_ = s0.outputBuf_.set 512 99 ∧
    set s0 513 99 = (s0, false) ∧
    set s0 (-1) 99 = (s0, false) := by
  have h0 := c10_set_single s0 0 99
  have h512 := c10_set_single s0 512 99
  refine ⟨(h0.1 (by decide)).1, (h512.1 (by decide)).1, ?_, ?_, ?_⟩
  · have h := (h512.1 (by decide)).2
    simpa using h
  · exact (c10_set_single s0 513 99).2.1 (by decide)
  · exact (c10_set_single s0 (-1) 99).2.1 (by decide)

/-- C2 (code bug, evaluation at the failing input): setBreakSerialParams
validates the STORED break format, not the format argument.  With the
default supported stored format 8N1, a call passing an unsupported format
returns true and stores it (contradicting the claim); conversely, once an
unsupported format is stored, a call passing the perfectly valid 8N1 is
rejected.  The baud = 0 and TXINV-bit rejections do behave as claimed. -/
theorem c2_break_params_failing :
    (setBreakSerialParams hwMK20 s0 250000 fmtBad).2 = true ∧
    (setBreakSerialParams hwMK20 s0 250000 fmtBad).1.breakFormat_ = fmtBad ∧
    (setBreakSerialParams hwMK20 s0 250000 fmtBad).1.breakBaud_ = 250000 ∧
    (setBreakSerialParams hwMK20 s2bad 250000 fmt8N1).2 = false ∧
    setBreakSerialParams hwMK20 s0 0 fmt8N1 = (s0, false) ∧
    setBreakSerialParams hwMK20 s0 250000 ⟨FormatBase.f8N1, true, false⟩ =
      (s0, false) := by
  refine ⟨rfl, rfl, rfl, rfl, rfl, rfl⟩

/-- C3 counterexample: with the engine not paused, setRefreshRate(0)
followed by completion of the in-flight packet leaves isTransmitting() true
(the source computes `!paused_ || transmitting_`), not false as the claim
states. -/
theorem c3_isTransmitting_counterexample :
    (setRefreshRate w3 0 (FloatVal.val 0)).2 = true ∧
    ((completePacket ((setRefreshRate w3 0 (FloatVal.val 0)).1.inst 0)).1).paused_
      = false ∧
    ((completePacket ((setRefreshRate w3 0 (FloatVal.val 0)).1.inst 0)).1).transmitting_
      = false ∧
    isTransmitting
      ((completePacket ((setRefreshRate w3 0 (FloatVal.val 0)).1.inst 0)).1)
      = true := by
  refine ⟨rfl, rfl, rfl, rfl⟩

/-- C3 (amended): while paused, isTransmitting() is true exactly when a
packet is mid-flight (the transmitting flag); while not paused it returns
true unconditionally — so after setRefreshRate(0) and packet completion
with the engine not paused it still returns true; only pausing (not a zero
refresh rate) can make it false. -/
theorem c3_isTransmitting_amended (s : SenderState) :
    (s.paused_ = true → (isTransmitting s = true ↔ s.transmitting_ = true)) ∧
    (s.paused_ = false → isTransmitting s = true) := by
  cases h : s.paused_ <;> simp [isTransmitting, h]

/-- C3 witness: the mid-flight paused case and the not-paused case at
concrete states. -/
theorem c3_isTransmitting_witness :
    (isTransmitting { s3 with paused_ := true } = true ↔
      ({ s3 with paused_ := true } : SenderState).transmitting_ = true) ∧
    isTransmitting s0 = true := by
  exact ⟨(c3_isTransmitting_amended { s3 with paused_ := true }).1 rfl,
    (c3_isTransmitting_amended s0).2 rfl⟩

/-- C4 counterexample: on the __MKL26Z64__ family (kBreakTimerAdjust = 5)
the stored adjusted BREAK time is uint32 arithmetic, so at the requested
time 4294967295 it wraps to 4 instead of equalling t + 5 as the claim
states for every t. -/
theorem c4_timing_adjust_counterexample :
    (setBreakTime hwKL26 s0 4294967295).adjustedBreakTime_ ≠
      4294967295 + 5 := by decide

/-- C4 (amended): the adjusted BREAK time is (t + kBreakTimerAdjust) reduced
mod 2^32 — equal to t + kBreakTimerAdjust whenever that sum is representable
in 32 bits — and the adjusted MAB time is t - kMABTimerAdjust when
kMABTimerAdjust ≤ t and 0 otherwise, never negative (it is a Nat that the
source clamps at zero before subtracting). -/
theorem c4_timing_adjust_amended (hw : HWConfig) (s : SenderState) (t : Nat) :
    ((setBreakTime hw s t).adjustedBreakTime_ =
        (t % U32 + hw.kBreakTimerAdjust) % U32) ∧
    (t + hw.kBreakTimerAdjust < U32 →
        (setBreakTime hw s t).adjustedBreakTime_ = t + hw.kBreakTimerAdjust) ∧
    (t < U32 → (setBreakTime hw s t).breakTime_ = t ∧
        (setMABTime hw s t).mabTime_ = t) ∧
    (t < U32 → hw.kMABTimerAdjust ≤ t →
        (setMABTime hw s t).adjustedMABTime_ = t - hw.kMABTimerAdjust) ∧
    (t < U32 → t < hw.kMABTimerAdjust →
        (setMABTime hw s t).adjustedMABTime_ = 0) := by
  refine ⟨rfl, ?_, ?_, ?_, ?_⟩
  · intro h
    simp only [setBreakTime]
    have ht : t % U32 = t := Nat.mod_eq_of_lt (by omega)
    rw [ht, Nat.mod_eq_of_lt h]
  · intro h
    simp only [setBreakTime, setMABTime]
    exact ⟨Nat.mod_eq_of_lt h, Nat.mod_eq_of_lt h⟩
  · intro h1 h2
    simp only [setMABTime]
    rw [Nat.mod_eq_of_lt h1, if_neg (by omega)]
  · intro h1 h2
    simp only [setMABTime]
    rw [Nat.mod_eq_of_lt h1, if_pos h2]

/-- C4 witness: on the __MK20DX256__ family (adjust constants 1 and 7),
setBreakTime(180) stores 181, setMABTime(20) stores 13, and setMABTime(5)
clamps to 0. -/
theorem c4_timing_adjust_witness :
    (setBreakTime hwMK20 s0 180).adjustedBreakTime_ = 181 ∧
    (setMABTime hwMK20 s0 20).adjustedMABTime_ = 13 ∧
    (setMABTime hwMK20 s0 5).adjustedMABTime_ = 0 := by
  refine ⟨?_, ?_, ?_⟩
  · have h := (c4_timing_adjust_amended hwMK20 s0 180).2.1 (by decide)
    simpa using h
  · have h := (c4_timing_adjust_amended hwMK20 s0 20).2.2.2.1 (by decide)
      (by decide)
    simpa using h
  · exact (c4_timing_adjust_amended hwMK20 s0 5).2.2.2.2 (by decide)
      (by decide)

/-- C5: in serial-framing break mode (breakUseTimer_ false), breakTime() and
mabTime() are derived, not stored: for every supported stored format the
BREAK is a fixed bit-time count (8 to 11, e.g. 9, 10 or 11) times 1000000
divided by the break baud, and the MAB a smaller count of 1 to 3 bit-times
over the same baud; an unsupported stored format yields the defaults 180
and 20. -/
theorem c5_serial_framing_times (hw : HWConfig) (s : SenderState)
    (h : s.breakUseTimer_ = false) :
    (∀ bb, breakBitCount hw s.breakFormat_.base = some bb →
        breakTime hw s = bb * 1000000 / s.breakBaud_) ∧
    (∀ mb, mabBitCount hw s.breakFormat_.base = some mb →
        mabTime hw s = mb * 1000000 / s.breakBaud_ ∧ 1 ≤ mb ∧ mb ≤ 3) ∧
    (∀ bb mb, breakBitCount hw s.breakFormat_.base = some bb →
        mabBitCount hw s.breakFormat_.base = some mb → mb < bb) ∧
    (breakBitCount hw s.breakFormat_.base = none →
        breakTime hw s = kDefaultBreakTime) ∧
    (mabBitCount hw s.breakFormat_.base = none →
        mabTime hw s = kDefaultMABTime) := by
  refine ⟨?_, ?_, ?_, ?_, ?_⟩
  · intro bb hbb
    simp [breakTime, h, hbb]
  · intro mb hmb
    refine ⟨by simp [mabTime, h, hmb], ?_, ?_⟩ <;>
      cases hb : s.breakFormat_.base <;>
        simp [mabBitCount, hb] at hmb <;> omega
  · intro bb mb hbb hmb
    cases hb : s.breakFormat_.base <;>
      simp [breakBitCount, mabBitCount, hb] at hbb hmb <;> omega
  · intro hbb
    simp [breakTime, h, hbb]
  · intro hmb
    simp [mabTime, h, hmb]

/-- C5 witness: with the default stored state (8N1 at 50000 baud,
serial-framing mode) breakTime() is 9 bit-times = 180 us and mabTime() is
1 bit-time = 20 us; with an unsupported stored format both defaults are
returned. -/
theorem c5_serial_framing_witness :
    breakTime hwMK20 s0 = 180 ∧ mabTime hwMK20 s0 = 20 ∧
    breakTime hwMK20 s2bad = 180 ∧ mabTime hwMK20 s2bad = 20 := by
  have h := c5_serial_framing_times hwMK20 s0 rfl
  have hb := c5_serial_framing_times hwMK20 s2bad rfl
  refine ⟨?_, ?_, ?_, ?_⟩
  · exact (h.1 9 rfl).trans (by decide)
  · exact ((h.2.1 1 rfl).1).trans (by decide)
  · exact hb.2.2.2.1 rfl
  · exact hb.2.2.2.2 rfl

/-- C6: setRefreshRate rejects NaN and negative rates, returning false and
leaving the whole world (stored rate, break-to-break interval, everything)
unchanged; an accepted nonzero rate returns true, stores the rate, and sets
the break-to-break interval to 1000000 divided by the rate (truncated into
the uint32 field); and when the previously stored rate was 0, the accepted
nonzero rate first fully restarts the engine — end() then begin() — before
the interval and rate are stored. -/
theorem c6_setRefreshRate (w : World) (i : Nat) (q : ℚ) :
    (setRefreshRate w i FloatVal.nan = (w, false)) ∧
    (q < 0 → setRefreshRate w i (FloatVal.val q) = (w, false)) ∧
    (0 < q →
        (setRefreshRate w i (FloatVal.val q)).2 = true ∧
        ((setRefreshRate w i (FloatVal.val q)).1.inst i).breakToBreakTime_ =
          ratTrunc32 (1000000 / q) ∧
        ((setRefreshRate w i (FloatVal.val q)).1.inst i).refreshRate_ =
          FloatVal.val q) ∧
    (0 < q → (w.inst i).refreshRate_ = FloatVal.val 0 →
        (setRefreshRate w i (FloatVal.val q)).1 =
          (beginW (endW w i) i).updInst i
            { (beginW (endW w i) i).inst i with
                breakToBreakTime_ := ratTrunc32 (1000000 / q),
                refreshRate_ := FloatVal.val q }) := by
  refine ⟨rfl, ?_, ?_, ?_⟩
  · intro h
    simp [setRefreshRate, h]
  · intro h
    simp [setRefreshRate, not_lt.mpr h.le, h.ne.symm, World.updInst]
  · intro h h0
    simp [setRefreshRate, not_lt.mpr h.le, h.ne.symm, h0]

/-- C6 witness: NaN and -1 are rejected without change; rate 40 (stored rate
previously 0) is accepted with interval 25000 us and triggers the full
restart. -/
theorem c6_setRefreshRate_witness :
    setRefreshRate w6 0 FloatVal.nan = (w6, false) ∧
    setRefreshRate w6 0 (FloatVal.val (-1)) = (w6, false) ∧
    (setRefreshRate w6 0 (FloatVal.val 40)).2 = true ∧
    ((setRefreshRate w6 0 (FloatVal.val 40)).1.inst 0).breakToBreakTime_ =
      25000 ∧
    (setRefreshRate w6 0 (FloatVal.val 40)).1 =
      (beginW (endW w6 0) 0).updInst 0
        { (beginW (endW w6 0) 0).inst 0 with
            breakToBreakTime_ := ratTrunc32 (1000000 / 40),
            refreshRate_ := FloatVal.val 40 } := by
  have h := c6_setRefreshRate w6 0 (-1)
  have h40 := c6_setRefreshRate w6 0 40
  refine ⟨h.1, h.2.1 (by norm_num), (h40.2.2.1 (by norm_num)).1, ?_, ?_⟩
  · have hb := (h40.2.2.1 (by norm_num)).2.1
    rw [hb]
    norm_num [ratTrunc32, U32]
    decide
  · exact h40.2.2.2 (by norm_num) rfl

/-- C7: completePacket increments the packet counter, resets the output
byte index to 0, clears the transmitting flag, moves the state to Idle,
and invokes the completion callback exactly when the engine is paused and
a callback is installed — never when not paused. -/
theorem c7_completePacket (s : SenderState) :
    ((completePacket s).1.packetCount_ = s.packetCount_ + 1) ∧
    ((completePacket s).1.outputBufIndex_ = 0) ∧
    ((completePacket s).1.transmitting_ = false) ∧
    ((completePacket s).1.state_ = XmitState.idle) ∧
    ((completePacket s).2 = (s.paused_ && s.doneTXFunc_)) := by
  refine ⟨rfl, rfl, rfl, rfl, rfl⟩

/-- C8: begin() installs the calling instance into its port slot and calls
end() on a different prior occupant; because the slot already points to the
new instance, the end() call on the evicted occupant does not clear it (the slot still
holds the caller afterwards) but does clear the began
flag of the evicted instance and mask its interrupts; end() on an instance whose began flag is
already false is a complete no-op (so it is idempotent); end() leaves the
registry untouched when the slot no longer points to the instance, and
clears exactly its own slot (masking interrupts) when it does. -/
theorem c8_registry (w : World) (i j : Nat)
    (hne : j ≠ i)
    (hbeg : (w.inst i).began_ = false)
    (hidx : 0 ≤ (w.inst i).serialIndex_)
    (hslot : w.txInstances (w.inst i).serialIndex_.toNat = some j)
    (hjidx : (w.inst j).serialIndex_ = (w.inst i).serialIndex_)
    (hjbeg : (w.inst j).began_ = true) :
    ((beginW w i).txInstances (w.inst i).serialIndex_.toNat = some i) ∧
    (((beginW w i).inst j).began_ = false) ∧
    (((beginW w i).inst j).irqEnabled = false) ∧
    (((beginW w i).inst i).began_ = true) ∧
    (((beginW w i).inst i).packetCount_ = 0) ∧
    (∀ (v : World) (k : Nat), (v.inst k).began_ = false → endW v k = v) ∧
    (∀ (v : World) (k : Nat),
        v.txInstances (v.inst k).serialIndex_.toNat ≠ some k →
        (endW v k).txInstances = v.txInstances) ∧
    (∀ (v : World) (k : Nat), (v.inst k).began_ = true →
        0 ≤ (v.inst k).serialIndex_ →
        v.txInstances (v.inst k).serialIndex_.toNat = some k →
        (endW v k).txInstances (v.inst k).serialIndex_.toNat = none ∧
        ((endW v k).inst k).irqEnabled = false ∧
        ((endW v k).inst k).began_ = false) := by
  have hnotlt : ¬(w.inst i).serialIndex_ < 0 := not_lt.mpr hidx
  have hne2 : i ≠ j := Ne.symm hne
  refine ⟨?_, ?_, ?_, ?_, ?_, ?_, ?_, ?_⟩
  · simp [beginW, endW, World.updInst, World.updSlot, hbeg, hjbeg, hne,
      hne2, hjidx, hslot, hnotlt]
  · simp [beginW, endW, World.updInst, World.updSlot, hbeg, hjbeg, hne,
      hne2, hjidx, hslot, hnotlt]
  · simp [beginW, endW, World.updInst, World.updSlot, hbeg, hjbeg, hne,
      hne2, hjidx, hslot, hnotlt]
  · simp [beginW, endW, World.updInst, World.updSlot, hbeg, hjbeg, hne,
      hne2, hjidx, hslot, hnotlt]
  · simp [beginW, endW, World.updInst, World.updSlot, hbeg, hjbeg, hne,
      hne2, hjidx, hslot, hnotlt]
  · intro v k h
    simp [endW, h]
  · intro v k h
    cases hb : (v.inst k).began_ with
    | false => simp [endW, hb]
    | true =>
      by_cases hs : (v.inst k).serialIndex_ < 0
      · simp [endW, hb, hs, World.updInst]
      · simp [endW, hb, hs, World.updInst, h]
  · intro v k h1 h2 h3
    refine ⟨?_, ?_, ?_⟩ <;>
      simp [endW, World.updInst, World.updSlot, h1, h3, not_lt.mpr h2]

/-- C8 witness: in the concrete two-instance world w8 (slot 0 owned by
instance 1), beginW of instance 0 installs instance 0 in slot 0, evicts
instance 1 (began cleared, interrupts masked), and a subsequent end() on
the evicted instance is a no-op. -/
theorem c8_registry_witness :
    (beginW w8 0).txInstances 0 = some 0 ∧
    ((beginW w8 0).inst 1).began_ = false ∧
    ((beginW w8 0).inst 1).irqEnabled = false ∧
    ((beginW w8 0).inst 0).began_ = true ∧
    ((beginW w8 0).inst 0).packetCount_ = 0 ∧
    endW (beginW w8 0) 1 = beginW w8 0 := by
  have h := c8_registry w8 0 1 (by decide) (by decide) (by decide)
    (by decide) (by decide) (by decide)
  exact ⟨h.1, h.2.1, h.2.2.1, h.2.2.2.1, h.2.2.2.2.1,
    h.2.2.2.2.2.1 (beginW w8 0) 1 h.2.1⟩

end TeensyDMX
